import Mathlib

/-!
Shallow embedding of `src/python/twitter/thermos/runner/helper.py`
(`TaskRunnerHelper`): checkpoint-state data model, PID ownership
verification, process-tree scanning, checkpoint locking and the kill
orchestrator, together with theorems settling the specification claims.

Wall-clock times (Python `time.time()` floats) are modelled as exact
rationals; PIDs as naturals; the live process table, the advisory-lock
state, the task-directory marker files and the outcome of each `os.kill`
call are explicit parameters.
-/

namespace Thermos

/-- OS process id. -/
abbrev Pid := Nat

/-- `TaskState` enum from the generated thrift `ttypes`. -/
inductive TaskState where
  | ACTIVE
  | SUCCESS
  | FAILED
  | KILLED
  | LOST
  deriving DecidableEq, Repr

/-- `ProcessState` enum from the generated thrift `ttypes`. -/
inductive ProcessState where
  | WAITING
  | FORKED
  | RUNNING
  | SUCCESS
  | KILLED
  | FAILED
  | LOST
  deriving DecidableEq, Repr

/-- `TaskRunnerHelper.TERMINAL_PROCESS_STATES`. -/
def TERMINAL_PROCESS_STATES : List ProcessState :=
  [ProcessState.SUCCESS, ProcessState.KILLED, ProcessState.FAILED, ProcessState.LOST]

/-- `TaskRunnerHelper.TERMINAL_TASK_STATES`. -/
def TERMINAL_TASK_STATES : List TaskState :=
  [TaskState.SUCCESS, TaskState.FAILED, TaskState.KILLED, TaskState.LOST]

/-- `TaskRunnerHelper.is_process_terminal`. -/
def is_process_terminal (s : ProcessState) : Bool :=
  TERMINAL_PROCESS_STATES.contains s

/-- `TaskRunnerHelper.is_task_terminal`. -/
def is_task_terminal (s : TaskState) : Bool :=
  TERMINAL_TASK_STATES.contains s

/-- A handle into the live process table (`ps.get_handle(pid)`): exposes
`pid()`, `user()` and `wall_time()`. -/
structure ProcessHandle where
  pid : Pid
  user : String
  wall_time : ℚ
  deriving DecidableEq, Repr

/-- `TaskRunnerHelper.MAX_START_TIME_DRIFT = Amount(10, Time.SECONDS)`,
in seconds. -/
def MAX_START_TIME_DRIFT : ℚ := 10

/-- `TaskRunnerHelper.this_is_really_our_pid(process_handle, current_user,
start_time, clock)`: the PID-reuse heuristic.  `clock_now` stands for
`clock.time()`. -/
def this_is_really_our_pid (process_handle : ProcessHandle)
    (current_user : String) (start_time : ℚ) (clock_now : ℚ) : Bool :=
  if process_handle.user ≠ current_user then
    false
  else
    let estimated_start_time := clock_now - process_handle.wall_time
    if |start_time - estimated_start_time| ≥ MAX_START_TIME_DRIFT then
      false
    else
      true

/-- One `ProcessStatus` thrift record (one run attempt of a named
process).  Unset optional numeric thrift fields are modelled as the
stated defaults. -/
structure ProcessStatus where
  process : String
  seq : Int
  state : ProcessState
  coordinator_pid : Option Pid := none
  pid : Option Pid := none
  fork_time : ℚ := 0
  start_time : ℚ := 0
  return_code : Option Int := none
  stop_time : Option ℚ := none
  deriving DecidableEq, Repr

/-- One `TaskStatus` thrift record. -/
structure TaskStatus where
  state : TaskState
  timestamp_ms : Int
  runner_pid : Pid
  runner_uid : Nat
  deriving DecidableEq, Repr

/-- The checkpoint header (`state.header`): we only need the owning user. -/
structure TaskHeader where
  user : String
  deriving DecidableEq, Repr

/-- The replayed checkpoint state (`CheckpointDispatcher.from_file`):
`header`, append-only task `statuses`, and per-process-name run
histories (a Python dict, modelled as an association list in insertion
order). -/
structure RunnerState where
  header : Option TaskHeader
  statuses : Option (List TaskStatus)
  processes : List (String × List ProcessStatus)
  deriving DecidableEq, Repr

/-- Python truthiness of an optional pid field (`None` and `0` are
falsy). -/
def optPidTruthy : Option Pid → Bool
  | none => false
  | some n => n ≠ 0

/-- `state.processes[process_name][-1]`: the most recent run attempt of
the named process, when the name is present and its history nonempty. -/
def latestRun (state : RunnerState) (process_name : String) :
    Option ProcessStatus :=
  match state.processes.lookup process_name with
  | some history => history.getLast?
  | none => none

/-- A snapshot of the live process table (`ProcessProviderFactory.get()`
after `collect_all`): the set of live pids, the handle for each pid, and
the recursive descendant enumeration `children_of(pid, all=True)`. -/
structure ProcessTable where
  pids : List Pid
  handleOf : Pid → ProcessHandle
  childrenOf : Pid → List Pid

/-- `TaskRunnerHelper.scan_process(state, process_name, clock, ps)`.

`clock_now` is the injected `clock` argument and `ambient_now` the
ambient system clock (`time` module): the source passes `clock=clock`
only for the main-pid ownership check, so the coordinator-pid check at
line 116 runs against the ambient clock.  Returns
`(coordinator pid, process pid, descendant tree)`.  The fallback arm is
unreachable from the orchestrator, which only scans names whose history
is present and nonempty under a non-`None` header. -/
def scan_process (state : RunnerState) (process_name : String)
    (clock_now : ℚ) (ambient_now : ℚ) (ps : ProcessTable) :
    Option Pid × Option Pid × List Pid :=
  match latestRun state process_name, state.header with
  | some process_run, some header =>
    let process_owner := header.user
    let coordinator_pid : Option Pid :=
      if optPidTruthy process_run.coordinator_pid then
        let cp := process_run.coordinator_pid.getD 0
        if ps.pids.contains cp &&
            this_is_really_our_pid (ps.handleOf cp) process_owner
              process_run.fork_time ambient_now then
          some cp
        else
          none
      else
        none
    let pid_tree : Option Pid × List Pid :=
      if optPidTruthy process_run.pid then
        let p := process_run.pid.getD 0
        if ps.pids.contains p &&
            this_is_really_our_pid (ps.handleOf p) process_owner
              process_run.start_time clock_now then
          (some p, ps.childrenOf p)
        else
          (none, [])
      else
        (none, [])
    (coordinator_pid, pid_tree.1, pid_tree.2)
  | _, _ => (none, none, [])

/-- A dispatched kill signal: `os.kill(-pgrp, SIGKILL)` or
`os.kill(pid, SIGKILL)`. -/
inductive Sig where
  | killGroup (pgrp : Pid)
  | killPid (pid : Pid)
  deriving DecidableEq, Repr

/-- `TaskRunnerHelper._get_coordinator_group(state, process_name)`:
the recorded `coordinator_pid` of the latest run attempt (asserted
present by the source; orchestrator call sites satisfy the assert). -/
def get_coordinator_group (state : RunnerState) (process_name : String) :
    Option Pid :=
  (latestRun state process_name).bind (fun r => r.coordinator_pid)

/-- `TaskRunnerHelper.kill_process(state, process_name)`: SIGKILL the
recorded coordinator process group when a coordinator pid was recorded
(regardless of liveness), then the confirmed-live coordinator pid, then
the confirmed-live main pid, then each descendant; returns the dispatched
signals in order and `bool(coordinator_pid or pid or tree)`.  Inside the
orchestrator `scan_process` is called without `clock=`, so both ownership
checks use the ambient clock. -/
def kill_process (state : RunnerState) (process_name : String)
    (ambient_now : ℚ) (ps : ProcessTable) : List Sig × Bool :=
  let coordinator_pgid := get_coordinator_group state process_name
  let scanned := scan_process state process_name ambient_now ambient_now ps
  let coordinator_pid := scanned.1
  let pid := scanned.2.1
  let tree := scanned.2.2
  let sigs : List Sig :=
    (if optPidTruthy coordinator_pgid then
        [Sig.killGroup (coordinator_pgid.getD 0)]
      else []) ++
    (match coordinator_pid with
      | some cp => [Sig.killPid cp]
      | none => []) ++
    (match pid with
      | some p => [Sig.killPid p]
      | none => []) ++
    tree.map Sig.killPid
  (sigs, coordinator_pid.isSome || pid.isSome || !tree.isEmpty)

/-- The outcome of one raw `os.kill` call on a pid, as seen by
`kill_runner`. -/
inductive SigOutcome where
  | delivered
  | esrch
  | eperm
  | other
  deriving DecidableEq, Repr

/-- Errors surfaced by the embedded operations: `PermissionError` from
`open_checkpoint`, `AssertionError` from failed `assert`s, an unexpected
`OSError` re-raised by `kill_runner`, and `IndexError` from `[-1]` on an
empty list. -/
inductive KillErr where
  | permission (msg : String)
  | assertion (msg : String)
  | osError
  | indexError
  deriving DecidableEq, Repr

/-- `TaskRunnerHelper.kill_runner(state)`: SIGKILL the runner pid
recorded in the most recent `TaskStatus`.  `sig` gives the outcome of the
raw `os.kill` on each pid; ESRCH (pid gone) counts as success, EPERM as
failure, anything else re-raises. -/
def kill_runner (state : Option RunnerState) (self_pid : Pid)
    (sig : Pid → SigOutcome) : Except KillErr Bool :=
  match state with
  | none => Except.error (KillErr.assertion "Could not read state!")
  | some st =>
    match st.statuses with
    | none => Except.error (KillErr.assertion "state.statuses")
    | some statuses =>
      match statuses.getLast? with
      | none => Except.error (KillErr.assertion "state.statuses")
      | some last =>
        if last.runner_pid = self_pid then
          Except.error (KillErr.assertion "Unwilling to commit seppuku.")
        else
          match sig last.runner_pid with
          | SigOutcome.delivered => Except.ok true
          | SigOutcome.esrch => Except.ok true
          | SigOutcome.eperm => Except.ok false
          | SigOutcome.other => Except.error KillErr.osError

/-- `TaskRunnerHelper.open_checkpoint(filename, force, state)`.

`locked` says whether another process currently holds the advisory lock
on the checkpoint file (the non-blocking `lock_file` returns `None`
exactly then).  On a held lock with `force`, the current owner is killed
via `kill_runner` (re-replaying the file yields the same `state`) and the
blocking re-lock then succeeds; if `kill_runner` reports failure the file
pointer stays `None` and `PermissionError` is raised, as it is when the
lock is held and `force` is off.  `Except.ok ()` stands for the returned
locked `ThriftRecordWriter`. -/
def open_checkpoint (locked : Bool) (force : Bool)
    (state : Option RunnerState) (self_pid : Pid)
    (sig : Pid → SigOutcome) : Except KillErr Unit :=
  if locked then
    if force then
      match kill_runner state self_pid sig with
      | Except.error e => Except.error e
      | Except.ok true => Except.ok ()
      | Except.ok false =>
        Except.error (KillErr.permission "Could not open locked checkpoint")
    else
      Except.error (KillErr.permission "Could not open locked checkpoint")
  else
    Except.ok ()

/-- Existence of the two task-directory marker files (`active` and
`finished` task paths). -/
structure TaskDirState where
  active_exists : Bool
  finished_exists : Bool
  deriving DecidableEq, Repr

/-- `TaskRunnerHelper.initialize_task(spec, task)`: asserts finished does
not exist; writes the active marker if absent (idempotent when
present). -/
def init_task (fs : TaskDirState) : Except KillErr TaskDirState :=
  if fs.finished_exists then
    Except.error (KillErr.assertion "not is_finished")
  else if fs.active_exists then
    Except.ok fs
  else
    Except.ok { fs with active_exists := true }

/-- `TaskRunnerHelper.finalize_task(spec)`: asserts active exists and
finished does not, then renames active to finished. -/
def finalize_task (fs : TaskDirState) : Except KillErr TaskDirState :=
  if fs.active_exists && !fs.finished_exists then
    Except.ok { active_exists := false, finished_exists := true }
  else
    Except.error (KillErr.assertion "is_active and not is_finished")

/-- One `RunnerCkpt` record appended to the checkpoint stream. -/
inductive Record where
  | task_status (ts : TaskStatus)
  | process_status (ps : ProcessStatus)
  deriving DecidableEq, Repr

/-- Python `int()` truncation toward zero of a rational. -/
def pyInt (q : ℚ) : Int :=
  Int.tdiv q.num (Int.ofNat q.den)

/-- The `TaskStatus` built by `write_task_state` inside `kill`:
`timestamp_ms = int(clock.time() * 1000)`, `runner_pid = os.getpid()`,
`runner_uid = os.getuid()`. -/
def mkTaskStatus (s : TaskState) (clock_now : ℚ) (self_pid : Pid)
    (self_uid : Nat) : TaskStatus :=
  { state := s
    timestamp_ms := pyInt (clock_now * 1000)
    runner_pid := self_pid
    runner_uid := self_uid }

/-- The observable result of one `TaskRunnerHelper.kill` call: records
appended to the checkpoint, signals dispatched, whether the checkpoint
writer was closed before returning, the resulting task-directory marker
state, and whether the call returned normally or raised. -/
structure KillResult where
  records : List Record
  signals : List Sig
  writer_closed : Bool
  fs : TaskDirState
  outcome : Except KillErr Unit
  deriving Repr

/-- The body of the per-process loop in `kill` for one
`(process, history)` item of `state.processes.items()`: when the latest
run attempt is non-terminal, scan and kill its live tree; append a KILLED
record (`return_code = -9`, `seq + 1`, `stop_time = clock.time()`) when
anything live was found, else a LOST record (`seq + 1`) unless the prior
state is WAITING.  An empty history makes `history[-1]` raise. -/
def killProcessStep (st : RunnerState) (ambient_now clock_now : ℚ)
    (ps : ProcessTable) (entry : String × List ProcessStatus) :
    Except KillErr (List Record × List Sig) :=
  match entry.2.getLast? with
  | none => Except.error KillErr.indexError
  | some process_status =>
    if is_process_terminal process_status.state then
      Except.ok ([], [])
    else
      let killed := kill_process st entry.1 ambient_now ps
      if killed.2 then
        Except.ok
          ([Record.process_status
              { process := entry.1
                seq := process_status.seq + 1
                state := ProcessState.KILLED
                return_code := some (-9)
                stop_time := some clock_now }],
            killed.1)
      else
        if process_status.state ≠ ProcessState.WAITING then
          Except.ok
            ([Record.process_status
                { process := entry.1
                  seq := process_status.seq + 1
                  state := ProcessState.LOST }],
              killed.1)
        else
          Except.ok ([], killed.1)

/-- The per-process loop of `kill`, over `state.processes.items()` in
order.  An `IndexError` in one item aborts the loop; records and signals
already produced are kept (the writes had already happened). -/
def runProcesses (st : RunnerState) (ambient_now clock_now : ℚ)
    (ps : ProcessTable) :
    List (String × List ProcessStatus) →
      Except (List Record × List Sig × KillErr) (List Record × List Sig)
  | [] => Except.ok ([], [])
  | entry :: rest =>
    match killProcessStep st ambient_now clock_now ps entry with
    | Except.error e => Except.error ([], [], e)
    | Except.ok (recs, sigs) =>
      match runProcesses st ambient_now clock_now ps rest with
      | Except.error (recs₂, sigs₂, e) =>
        Except.error (recs ++ recs₂, sigs ++ sigs₂, e)
      | Except.ok (recs₂, sigs₂) =>
        Except.ok (recs ++ recs₂, sigs ++ sigs₂)

/-- `TaskRunnerHelper.kill(task_id, checkpoint_root, force,
terminal_status, clock)`.

Inputs: the replayed checkpoint `state`, the advisory-lock occupancy
`locked`, `force`, the requested `terminal_status`, the injected clock
reading `clock_now`, the ambient system clock `ambient_now` (used by the
scans, which never receive the injected clock), the caller's pid and uid,
the raw-signal outcome map `sig`, the live process table `ps`, and the
task-directory marker state `fs`.

Faithful control flow: assert on `terminal_status`; open the checkpoint
(may raise); if state/header/statuses is missing, return leaving the
writer open; if the latest task status is terminal, finalize and return
leaving the writer open; otherwise, under `with closing(ckpt)` (so the
writer is closed on this path even if the loop raises), write
`TaskState.ACTIVE`, run the per-process loop, write the terminal status,
and finally finalize the task directory. -/
def kill (state : Option RunnerState) (locked force : Bool)
    (terminal_status : TaskState) (clock_now ambient_now : ℚ)
    (self_pid : Pid) (self_uid : Nat) (sig : Pid → SigOutcome)
    (ps : ProcessTable) (fs : TaskDirState) : KillResult :=
  if terminal_status ≠ TaskState.KILLED ∧ terminal_status ≠ TaskState.LOST then
    { records := [], signals := [], writer_closed := false, fs := fs
      outcome := Except.error (KillErr.assertion "terminal_status") }
  else
    match open_checkpoint locked force state self_pid sig with
    | Except.error e =>
      { records := [], signals := [], writer_closed := false, fs := fs
        outcome := Except.error e }
    | Except.ok _ =>
      match state with
      | none =>
        { records := [], signals := [], writer_closed := false, fs := fs
          outcome := Except.ok () }
      | some st =>
        match st.header, st.statuses with
        | none, _ =>
          { records := [], signals := [], writer_closed := false, fs := fs
            outcome := Except.ok () }
        | some _, none =>
          { records := [], signals := [], writer_closed := false, fs := fs
            outcome := Except.ok () }
        | some _, some statuses =>
          match statuses.getLast? with
          | none =>
            { records := [], signals := [], writer_closed := false, fs := fs
              outcome := Except.error KillErr.indexError }
          | some last =>
            if is_task_terminal last.state then
              match finalize_task fs with
              | Except.ok fs₂ =>
                { records := [], signals := [], writer_closed := false
                  fs := fs₂, outcome := Except.ok () }
              | Except.error e =>
                { records := [], signals := [], writer_closed := false
                  fs := fs, outcome := Except.error e }
            else
              let active_rec :=
                Record.task_status
                  (mkTaskStatus TaskState.ACTIVE clock_now self_pid self_uid)
              match runProcesses st ambient_now clock_now ps st.processes with
              | Except.error (recs, sigs, e) =>
                { records := active_rec :: recs, signals := sigs
                  writer_closed := true, fs := fs
                  outcome := Except.error e }
              | Except.ok (recs, sigs) =>
                let final_rec :=
                  Record.task_status
                    (mkTaskStatus terminal_status clock_now self_pid self_uid)
                match finalize_task fs with
                | Except.ok fs₂ =>
                  { records := active_rec :: recs ++ [final_rec]
                    signals := sigs, writer_closed := true, fs := fs₂
                    outcome := Except.ok () }
                | Except.error e =>
                  { records := active_rec :: recs ++ [final_rec]
                    signals := sigs, writer_closed := true, fs := fs
                    outcome := Except.error e }

/-- C3: `this_is_really_our_pid` returns true iff the handle's owner
equals the expected owner and the absolute difference between the
recorded start time and the estimated start time
`clock.now() - wall_time` is strictly below 10 seconds; in particular a
differing owner yields false regardless of timing. -/
theorem C3_pid_ownership_iff (process_handle : ProcessHandle)
    (current_user : String) (start_time clock_now : ℚ) :
    this_is_really_our_pid process_handle current_user start_time clock_now
        = true ↔
      (process_handle.user = current_user ∧
        |start_time - (clock_now - process_handle.wall_time)| < 10) := by
  simp only [this_is_really_our_pid, MAX_START_TIME_DRIFT]
  split_ifs with h1 h2
  · simp only [Bool.false_eq_true, false_iff, not_and]
    exact fun hc => absurd hc h1
  · simp only [Bool.false_eq_true, false_iff, not_and, not_lt]
    intro _
    linarith
  · simp only [true_iff]
    refine ⟨not_not.mp h1, ?_⟩
    linarith [not_le.mp h2]

/-- C9: `finalize_task` fails its assertion whenever the active marker is
absent or the finished marker present — in particular on a fresh task
directory (before `initialize_task`) and on any second `finalize_task`
call — and when the precondition holds it renames active to finished. -/
theorem C9_finalize_task_lifecycle (fs fs₂ : TaskDirState) :
    ((fs.active_exists = false ∨ fs.finished_exists = true) →
      ∃ m, finalize_task fs = Except.error (KillErr.assertion m))
    ∧ (fs.active_exists = true → fs.finished_exists = false →
      finalize_task fs =
        Except.ok { active_exists := false, finished_exists := true })
    ∧ (finalize_task fs = Except.ok fs₂ →
      ∃ m, finalize_task fs₂ = Except.error (KillErr.assertion m))
    ∧ (∃ m, finalize_task { active_exists := false, finished_exists := false }
        = Except.error (KillErr.assertion m)) := by
  refine ⟨?_, ?_, ?_, ?_⟩
  · intro h
    rcases h with h | h <;>
      exact ⟨"is_active and not is_finished", by simp [finalize_task, h]⟩
  · intro ha hf
    simp [finalize_task, ha, hf]
  · intro h
    unfold finalize_task at h ⊢
    split_ifs at h with hc
    cases h
    exact ⟨"is_active and not is_finished", by simp⟩
  · exact ⟨"is_active and not is_finished", by simp [finalize_task]⟩

/-- Witness for C9 at concrete marker states: finished-already-present
fails, and the valid transition renames active to finished. -/
theorem C9_finalize_task_lifecycle_witness :
    (∃ m, finalize_task { active_exists := false, finished_exists := true }
        = Except.error (KillErr.assertion m))
    ∧ finalize_task { active_exists := true, finished_exists := false }
        = Except.ok { active_exists := false, finished_exists := true } :=
  ⟨(C9_finalize_task_lifecycle
      { active_exists := false, finished_exists := true }
      { active_exists := false, finished_exists := true }).1 (Or.inl rfl),
    (C9_finalize_task_lifecycle
      { active_exists := true, finished_exists := false }
      { active_exists := false, finished_exists := true }).2.1 rfl rfl⟩

/-- Example checkpoint state whose latest task status is terminal
(KILLED, recorded runner pid 1) with no processes. -/
def exTermState : RunnerState :=
  { header := some { user := "bob" }
    statuses := some
      [{ state := TaskState.KILLED, timestamp_ms := 0, runner_pid := 1,
         runner_uid := 0 }]
    processes := [] }

/-- Example empty live process table. -/
def exEmptyTable : ProcessTable :=
  { pids := [], handleOf := fun p => { pid := p, user := "", wall_time := 0 }
    childrenOf := fun _ => [] }

/-- Example raw-signal outcome map: every delivery succeeds. -/
def exSig : Pid → SigOutcome := fun _ => SigOutcome.delivered

/-- Example state for the scan-clock experiment: one process `p` whose
latest run recorded pid 7 with start time 100. -/
def exScanState : RunnerState :=
  { header := some { user := "bob" }
    statuses := some []
    processes :=
      [("p",
        [{ process := "p", seq := 0, state := ProcessState.RUNNING,
           pid := some 7, start_time := 100 }])] }

/-- Example live table for the scan-clock experiment: pid 7 is live,
owned by `bob`, with wall time 5. -/
def exScanTable : ProcessTable :=
  { pids := [7]
    handleOf := fun p => { pid := p, user := "bob", wall_time := 5 }
    childrenOf := fun _ => [] }

/-- C10: in `scan_process` the coordinator-pid ownership verdict is
computed against the ambient system clock (the source omits `clock=clock`
at the coordinator check), so for a fixed process table and state it is
invariant under the injected clock argument, while the main-pid verdict
does depend on the injected clock. -/
theorem C10_scan_process_clock :
    (∀ (st : RunnerState) (name : String) (ps : ProcessTable)
        (ambient_now c₁ c₂ : ℚ),
      (scan_process st name c₁ ambient_now ps).1 =
        (scan_process st name c₂ ambient_now ps).1)
    ∧ (∃ (st : RunnerState) (name : String) (ps : ProcessTable)
        (ambient_now c₁ c₂ : ℚ),
      (scan_process st name c₁ ambient_now ps).2.1 ≠
        (scan_process st name c₂ ambient_now ps).2.1) := by
  constructor
  · intro st name ps ambient_now c₁ c₂
    unfold scan_process
    cases hr : latestRun st name <;> cases hh : st.header <;> simp
  · refine ⟨exScanState, "p", exScanTable, 0, 105, 200, ?_⟩
    have h₁ : (scan_process exScanState "p" 105 0 exScanTable).2.1 = some 7 := by
      norm_num [scan_process, exScanState, exScanTable, latestRun,
        this_is_really_our_pid, MAX_START_TIME_DRIFT, optPidTruthy]
    have h₂ : (scan_process exScanState "p" 200 0 exScanTable).2.1 = none := by
      norm_num [scan_process, exScanState, exScanTable, latestRun,
        this_is_really_our_pid, MAX_START_TIME_DRIFT, optPidTruthy]
    rw [h₁, h₂]
    simp

/-- C7: during a forced takeover of a held lock, an ESRCH outcome when
signaling the current owner's recorded runner pid counts as success and
`open_checkpoint` returns the writer without error, while an EPERM
outcome makes `kill_runner` report failure and the acquisition raises
`PermissionError`. -/
theorem C7_forced_takeover (st : RunnerState) (statuses : List TaskStatus)
    (last : TaskStatus) (self_pid : Pid) (sig₁ sig₂ : Pid → SigOutcome)
    (hs : st.statuses = some statuses)
    (hl : statuses.getLast? = some last)
    (hself : last.runner_pid ≠ self_pid)
    (h₁ : sig₁ last.runner_pid = SigOutcome.esrch)
    (h₂ : sig₂ last.runner_pid = SigOutcome.eperm) :
    open_checkpoint true true (some st) self_pid sig₁ = Except.ok ()
    ∧ open_checkpoint true true (some st) self_pid sig₂ =
        Except.error
          (KillErr.permission "Could not open locked checkpoint") := by
  unfold open_checkpoint kill_runner
  simp [hs, hl, hself, h₁, h₂]

/-- Witness for C7 at a concrete held lock: owner pid 1, caller pid 99,
one signal map answering ESRCH and one answering EPERM. -/
theorem C7_forced_takeover_witness :
    open_checkpoint true true (some exTermState) 99
      (fun _ => SigOutcome.esrch) = Except.ok ()
    ∧ open_checkpoint true true (some exTermState) 99
        (fun _ => SigOutcome.eperm) =
      Except.error (KillErr.permission "Could not open locked checkpoint") :=
  C7_forced_takeover exTermState _ _ 99 _ _ rfl rfl (by decide) rfl rfl

/-- C8: with the lock held by another process and `force = false`,
`open_checkpoint` raises `PermissionError`, and the surrounding `kill`
surfaces that error having appended no checkpoint record and left the
task directory untouched. -/
theorem C8_lock_contention (state : Option RunnerState) (self_pid : Pid)
    (sig : Pid → SigOutcome) (terminal_status : TaskState)
    (clock_now ambient_now : ℚ) (self_uid : Nat) (ps : ProcessTable)
    (fs : TaskDirState)
    (hterm : terminal_status = TaskState.KILLED ∨
      terminal_status = TaskState.LOST) :
    open_checkpoint true false state self_pid sig =
      Except.error (KillErr.permission "Could not open locked checkpoint")
    ∧ (kill state true false terminal_status clock_now ambient_now self_pid
        self_uid sig ps fs).records = []
    ∧ (kill state true false terminal_status clock_now ambient_now self_pid
        self_uid sig ps fs).outcome =
      Except.error (KillErr.permission "Could not open locked checkpoint")
    ∧ (kill state true false terminal_status clock_now ambient_now self_pid
        self_uid sig ps fs).fs = fs := by
  have hopen : open_checkpoint true false state self_pid sig =
      Except.error (KillErr.permission "Could not open locked checkpoint") := by
    unfold open_checkpoint
    simp
  refine ⟨hopen, ?_⟩
  unfold kill
  rcases hterm with h | h <;> subst h <;> simp [hopen]

/-- Witness for C8 at a concrete contended lock. -/
theorem C8_lock_contention_witness :
    open_checkpoint true false (some exTermState) 99 exSig =
      Except.error (KillErr.permission "Could not open locked checkpoint")
    ∧ (kill (some exTermState) true false TaskState.KILLED 0 0 99 0 exSig
        exEmptyTable { active_exists := true, finished_exists := false
        }).records = []
    ∧ (kill (some exTermState) true false TaskState.KILLED 0 0 99 0 exSig
        exEmptyTable { active_exists := true, finished_exists := false
        }).outcome =
      Except.error (KillErr.permission "Could not open locked checkpoint")
    ∧ (kill (some exTermState) true false TaskState.KILLED 0 0 99 0 exSig
        exEmptyTable { active_exists := true, finished_exists := false
        }).fs = { active_exists := true, finished_exists := false } :=
  C8_lock_contention (some exTermState) 99 exSig TaskState.KILLED 0 0 0
    exEmptyTable { active_exists := true, finished_exists := false }
    (Or.inl rfl)

/-- Path lemma: on a free lock with a well-formed replayed state whose
latest task status is terminal, `kill` short-circuits all checkpoint
mutation: no records, no signals, the writer is left open, and the only
effect is `finalize_task`. -/
lemma kill_terminal_shortcircuit (st : RunnerState)
    (statuses : List TaskStatus) (last : TaskStatus) (hdr : TaskHeader)
    (force : Bool) (terminal_status : TaskState) (clock_now ambient_now : ℚ)
    (self_pid : Pid) (self_uid : Nat) (sig : Pid → SigOutcome)
    (ps : ProcessTable) (fs : TaskDirState)
    (hh : st.header = some hdr) (hs : st.statuses = some statuses)
    (hl : statuses.getLast? = some last)
    (hterm : is_task_terminal last.state = true)
    (hts : terminal_status = TaskState.KILLED ∨
      terminal_status = TaskState.LOST) :
    kill (some st) false force terminal_status clock_now ambient_now
        self_pid self_uid sig ps fs =
      match finalize_task fs with
      | Except.ok fs₂ =>
        { records := [], signals := [], writer_closed := false, fs := fs₂,
          outcome := Except.ok () }
      | Except.error e =>
        { records := [], signals := [], writer_closed := false, fs := fs,
          outcome := Except.error e } := by
  rcases hts with h | h <;> subst h <;>
    simp [kill, open_checkpoint, hh, hs, hl, hterm]

/-- Path lemma: on a free lock with a well-formed replayed state whose
latest task status is non-terminal, `kill` writes the ACTIVE record, runs
the per-process loop, writes the terminal record on loop success, closes
the writer (the loop runs under `with closing(ckpt)`) and finalizes. -/
lemma kill_mutation_path (st : RunnerState)
    (statuses : List TaskStatus) (last : TaskStatus) (hdr : TaskHeader)
    (force : Bool) (terminal_status : TaskState) (clock_now ambient_now : ℚ)
    (self_pid : Pid) (self_uid : Nat) (sig : Pid → SigOutcome)
    (ps : ProcessTable) (fs : TaskDirState)
    (hh : st.header = some hdr) (hs : st.statuses = some statuses)
    (hl : statuses.getLast? = some last)
    (hterm : is_task_terminal last.state = false)
    (hts : terminal_status = TaskState.KILLED ∨
      terminal_status = TaskState.LOST) :
    kill (some st) false force terminal_status clock_now ambient_now
        self_pid self_uid sig ps fs =
      match runProcesses st ambient_now clock_now ps st.processes with
      | Except.error (recs, sigs, e) =>
        { records :=
            Record.task_status
              (mkTaskStatus TaskState.ACTIVE clock_now self_pid self_uid)
              :: recs
          signals := sigs, writer_closed := true, fs := fs
          outcome := Except.error e }
      | Except.ok (recs, sigs) =>
        match finalize_task fs with
        | Except.ok fs₂ =>
          { records :=
              Record.task_status
                (mkTaskStatus TaskState.ACTIVE clock_now self_pid self_uid)
                :: recs ++
                [Record.task_status
                  (mkTaskStatus terminal_status clock_now self_pid self_uid)]
            signals := sigs, writer_closed := true, fs := fs₂
            outcome := Except.ok () }
        | Except.error e =>
          { records :=
              Record.task_status
                (mkTaskStatus TaskState.ACTIVE clock_now self_pid self_uid)
                :: recs ++
                [Record.task_status
                  (mkTaskStatus terminal_status clock_now self_pid self_uid)]
            signals := sigs, writer_closed := true, fs := fs
            outcome := Except.error e } := by
  rcases hts with h | h <;> subst h <;>
    simp [kill, open_checkpoint, hh, hs, hl, hterm]

/-- C1 counterexample: on a task whose checkpoint is already terminal,
the first `kill` appends nothing and succeeds, but the second `kill` in
succession raises (its `finalize_task` precondition fails because the
active marker was already renamed), refuting that both calls succeed. -/
theorem C1_counterexample :
    (kill (some exTermState) false true TaskState.KILLED 0 0 99 0 exSig
        exEmptyTable
        { active_exists := true, finished_exists := false }).records = []
    ∧ (kill (some exTermState) false true TaskState.KILLED 0 0 99 0 exSig
        exEmptyTable
        { active_exists := true, finished_exists := false }).outcome =
      Except.ok ()
    ∧ (kill (some exTermState) false true TaskState.KILLED 0 0 99 0 exSig
        exEmptyTable
        ((kill (some exTermState) false true TaskState.KILLED 0 0 99 0
          exSig exEmptyTable
          { active_exists := true, finished_exists := false }).fs)).outcome =
      Except.error (KillErr.assertion "is_active and not is_finished") := by
  refine ⟨?_, ?_, ?_⟩ <;> rfl

/-- C1 (amended): two successive `kill` calls on an already-terminal task
both append no checkpoint records and both attempt finalization, but only
the first succeeds: the second call's `finalize_task` assertion fails
because the active marker was already renamed to finished. -/
theorem C1_kill_twice_terminal (st : RunnerState)
    (statuses : List TaskStatus) (last : TaskStatus) (hdr : TaskHeader)
    (force : Bool) (terminal_status : TaskState) (clock_now ambient_now : ℚ)
    (self_pid : Pid) (self_uid : Nat) (sig : Pid → SigOutcome)
    (ps : ProcessTable) (fs : TaskDirState)
    (hh : st.header = some hdr) (hs : st.statuses = some statuses)
    (hl : statuses.getLast? = some last)
    (hterm : is_task_terminal last.state = true)
    (hts : terminal_status = TaskState.KILLED ∨
      terminal_status = TaskState.LOST)
    (ha : fs.active_exists = true) (hf : fs.finished_exists = false) :
    (kill (some st) false force terminal_status clock_now ambient_now
        self_pid self_uid sig ps fs).records = []
    ∧ (kill (some st) false force terminal_status clock_now ambient_now
        self_pid self_uid sig ps fs).outcome = Except.ok ()
    ∧ (kill (some st) false force terminal_status clock_now ambient_now
        self_pid self_uid sig ps fs).fs =
      { active_exists := false, finished_exists := true }
    ∧ (kill (some st) false force terminal_status clock_now ambient_now
        self_pid self_uid sig ps
        ((kill (some st) false force terminal_status clock_now ambient_now
          self_pid self_uid sig ps fs).fs)).records = []
    ∧ (kill (some st) false force terminal_status clock_now ambient_now
        self_pid self_uid sig ps
        ((kill (some st) false force terminal_status clock_now ambient_now
          self_pid self_uid sig ps fs).fs)).outcome =
      Except.error (KillErr.assertion "is_active and not is_finished") := by
  have hfin₁ : finalize_task fs =
      Except.ok { active_exists := false, finished_exists := true } := by
    simp [finalize_task, ha, hf]
  have e₁ := kill_terminal_shortcircuit st statuses last hdr force
    terminal_status clock_now ambient_now self_pid self_uid sig ps fs
    hh hs hl hterm hts
  rw [hfin₁] at e₁
  have hfin₂ : finalize_task
      { active_exists := false, finished_exists := true } =
      Except.error (KillErr.assertion "is_active and not is_finished") := by
    simp [finalize_task]
  have e₂ := kill_terminal_shortcircuit st statuses last hdr force
    terminal_status clock_now ambient_now self_pid self_uid sig ps
    { active_exists := false, finished_exists := true }
    hh hs hl hterm hts
  rw [hfin₂] at e₂
  rw [e₁]
  exact ⟨rfl, rfl, rfl, by rw [e₂], by rw [e₂]⟩

/-- Witness for the amended C1 at a concrete already-terminal task. -/
theorem C1_kill_twice_terminal_witness :
    (kill (some exTermState) false false TaskState.LOST 3 4 99 7 exSig
        exEmptyTable
        { active_exists := true, finished_exists := false }).records = []
    ∧ (kill (some exTermState) false false TaskState.LOST 3 4 99 7 exSig
        exEmptyTable
        { active_exists := true, finished_exists := false }).outcome =
      Except.ok ()
    ∧ (kill (some exTermState) false false TaskState.LOST 3 4 99 7 exSig
        exEmptyTable
        { active_exists := true, finished_exists := false }).fs =
      { active_exists := false, finished_exists := true }
    ∧ (kill (some exTermState) false false TaskState.LOST 3 4 99 7 exSig
        exEmptyTable
        ((kill (some exTermState) false false TaskState.LOST 3 4 99 7
          exSig exEmptyTable
          { active_exists := true, finished_exists := false }).fs)).records
      = []
    ∧ (kill (some exTermState) false false TaskState.LOST 3 4 99 7 exSig
        exEmptyTable
        ((kill (some exTermState) false false TaskState.LOST 3 4 99 7
          exSig exEmptyTable
          { active_exists := true, finished_exists := false }).fs)).outcome
      = Except.error (KillErr.assertion "is_active and not is_finished") :=
  C1_kill_twice_terminal exTermState _ _ _ false TaskState.LOST 3 4 99 7
    exSig exEmptyTable { active_exists := true, finished_exists := false }
    rfl rfl rfl rfl (Or.inr rfl) rfl rfl

/-- C2 counterexample: a `kill` on an already-terminal task obtains the
writer (the lock is free, so `open_checkpoint` succeeds) and returns
normally, yet leaves the writer unclosed — the `with closing(ckpt)` block
only wraps the mutation path, so the short-circuit return leaks the
lock. -/
theorem C2_counterexample :
    open_checkpoint false false (some exTermState) 99 exSig = Except.ok ()
    ∧ (kill (some exTermState) false false TaskState.KILLED 0 0 99 0 exSig
        exEmptyTable
        { active_exists := true, finished_exists := false }).outcome =
      Except.ok ()
    ∧ (kill (some exTermState) false false TaskState.KILLED 0 0 99 0 exSig
        exEmptyTable
        { active_exists := true, finished_exists := false }).writer_closed
      = false := by
  refine ⟨?_, ?_, ?_⟩ <;> rfl

/-- C2 (amended): the checkpoint writer is closed on the path that
performs checkpoint mutation (even when the per-process loop raises or
the final `finalize_task` fails), but `kill` returns with the writer
still open on the already-terminal short-circuit and on the abort taken
when the replayed state (or its header or statuses) is missing, even
though the writer was successfully obtained there. -/
theorem C2_writer_release (st : RunnerState)
    (statuses : List TaskStatus) (last : TaskStatus) (hdr : TaskHeader)
    (force : Bool) (terminal_status : TaskState) (clock_now ambient_now : ℚ)
    (self_pid : Pid) (self_uid : Nat) (sig : Pid → SigOutcome)
    (ps : ProcessTable) (fs : TaskDirState)
    (hh : st.header = some hdr) (hs : st.statuses = some statuses)
    (hl : statuses.getLast? = some last)
    (hts : terminal_status = TaskState.KILLED ∨
      terminal_status = TaskState.LOST) :
    (is_task_terminal last.state = false →
      (kill (some st) false force terminal_status clock_now ambient_now
        self_pid self_uid sig ps fs).writer_closed = true)
    ∧ (is_task_terminal last.state = true →
      (kill (some st) false force terminal_status clock_now ambient_now
        self_pid self_uid sig ps fs).writer_closed = false)
    ∧ (kill none false force terminal_status clock_now ambient_now
        self_pid self_uid sig ps fs).writer_closed = false
    ∧ (kill none false force terminal_status clock_now ambient_now
        self_pid self_uid sig ps fs).outcome = Except.ok ()
    ∧ open_checkpoint false force none self_pid sig = Except.ok ()
    ∧ (∀ st₂ : RunnerState, st₂.header = none →
      (kill (some st₂) false force terminal_status clock_now ambient_now
        self_pid self_uid sig ps fs).writer_closed = false
      ∧ (kill (some st₂) false force terminal_status clock_now ambient_now
        self_pid self_uid sig ps fs).outcome = Except.ok ())
    ∧ (∀ st₂ : RunnerState, st₂.statuses = none →
      (kill (some st₂) false force terminal_status clock_now ambient_now
        self_pid self_uid sig ps fs).writer_closed = false
      ∧ (kill (some st₂) false force terminal_status clock_now ambient_now
        self_pid self_uid sig ps fs).outcome = Except.ok ())
    ∧ (∀ state₂ : Option RunnerState,
      open_checkpoint false force state₂ self_pid sig = Except.ok ()) := by
  refine ⟨?_, ?_, ?_, ?_, rfl, ?_, ?_, fun _ => rfl⟩
  · intro hterm
    rw [kill_mutation_path st statuses last hdr force terminal_status
      clock_now ambient_now self_pid self_uid sig ps fs hh hs hl hterm hts]
    cases hrun : runProcesses st ambient_now clock_now ps st.processes with
    | error x =>
      obtain ⟨recs, sigs, e⟩ := x
      rfl
    | ok x =>
      obtain ⟨recs, sigs⟩ := x
      cases hfin : finalize_task fs <;> rfl
  · intro hterm
    rw [kill_terminal_shortcircuit st statuses last hdr force
      terminal_status clock_now ambient_now self_pid self_uid sig ps fs
      hh hs hl hterm hts]
    cases hfin : finalize_task fs <;> rfl
  · rcases hts with h | h <;> subst h <;> rfl
  · rcases hts with h | h <;> subst h <;> rfl
  · intro st₂ h₂
    rcases hts with h | h <;> subst h <;>
      constructor <;> simp [kill, open_checkpoint, h₂]
  · intro st₂ h₂
    rcases hts with h | h <;> subst h <;>
      constructor <;> cases hh₂ : st₂.header <;>
        simp [kill, open_checkpoint, h₂, hh₂]

/-- Example replayed state with a missing header. -/
def exNoHeaderState : RunnerState :=
  { header := none, statuses := some [], processes := [] }

/-- Example replayed state with missing statuses. -/
def exNoStatusesState : RunnerState :=
  { header := some { user := "bob" }, statuses := none, processes := [] }

/-- Witness for the amended C2: a concrete non-terminal task closes the
writer; the concrete terminal task of the counterexample leaves it open,
as do concrete states with a missing header or missing statuses. -/
theorem C2_writer_release_witness :
    (kill (some exTermState) false false TaskState.KILLED 0 0 99 0 exSig
        exEmptyTable
        { active_exists := true, finished_exists := false }).writer_closed
      = false
    ∧ (kill none false false TaskState.KILLED 0 0 99 0 exSig exEmptyTable
        { active_exists := true, finished_exists := false }).writer_closed
      = false
    ∧ (kill (some exNoHeaderState) false false TaskState.KILLED 0 0 99 0
        exSig exEmptyTable
        { active_exists := true, finished_exists := false }).writer_closed
      = false
    ∧ (kill (some exNoStatusesState) false false TaskState.KILLED 0 0 99 0
        exSig exEmptyTable
        { active_exists := true, finished_exists := false }).writer_closed
      = false := by
  have h := C2_writer_release exTermState _ _ _ false TaskState.KILLED 0 0
    99 0 exSig exEmptyTable
    { active_exists := true, finished_exists := false }
    rfl rfl rfl (Or.inl rfl)
  exact ⟨h.2.1 rfl, h.2.2.1,
    (h.2.2.2.2.2.1 exNoHeaderState rfl).1,
    (h.2.2.2.2.2.2.1 exNoStatusesState rfl).1⟩

/-- The records produced by the per-process loop, also when the loop
aborted with an error (those writes had already happened). -/
def runRecords
    (res : Except (List Record × List Sig × KillErr)
      (List Record × List Sig)) : List Record :=
  match res with
  | Except.ok x => x.1
  | Except.error x => x.1

/-- The records produced by one loop iteration (none when it raised). -/
def stepRecords (res : Except KillErr (List Record × List Sig)) :
    List Record :=
  match res with
  | Except.ok x => x.1
  | Except.error _ => []

/-- Unfolding of one loop iteration once the latest run attempt is
known. -/
lemma killProcessStep_eq (st : RunnerState) (a c : ℚ) (ps : ProcessTable)
    (e : String × List ProcessStatus) (lastp : ProcessStatus)
    (hgl : e.2.getLast? = some lastp) :
    killProcessStep st a c ps e =
      if is_process_terminal lastp.state then
        Except.ok ([], [])
      else if (kill_process st e.1 a ps).2 then
        Except.ok
          ([Record.process_status
              { process := e.1, seq := lastp.seq + 1,
                state := ProcessState.KILLED, return_code := some (-9),
                stop_time := some c }],
            (kill_process st e.1 a ps).1)
      else if lastp.state ≠ ProcessState.WAITING then
        Except.ok
          ([Record.process_status
              { process := e.1, seq := lastp.seq + 1,
                state := ProcessState.LOST }],
            (kill_process st e.1 a ps).1)
      else
        Except.ok ([], (kill_process st e.1 a ps).1) := by
  unfold killProcessStep
  rw [hgl]

/-- A loop iteration with a nonempty history never raises. -/
lemma killProcessStep_isOk (st : RunnerState) (a c : ℚ) (ps : ProcessTable)
    (e : String × List ProcessStatus) (hne : e.2 ≠ []) :
    ∃ x, killProcessStep st a c ps e = Except.ok x := by
  cases hgl : e.2.getLast? with
  | none =>
    exact absurd (List.getLast?_eq_none_iff.mp hgl) hne
  | some lastp =>
    rw [killProcessStep_eq st a c ps e lastp hgl]
    split_ifs <;> exact ⟨_, rfl⟩

/-- Loop unrolling: a successful head iteration prepends its records. -/
lemma runRecords_cons (st : RunnerState) (a c : ℚ) (ps : ProcessTable)
    (e : String × List ProcessStatus)
    (rest : List (String × List ProcessStatus))
    (x : List Record × List Sig)
    (hok : killProcessStep st a c ps e = Except.ok x) :
    runRecords (runProcesses st a c ps (e :: rest)) =
      x.1 ++ runRecords (runProcesses st a c ps rest) := by
  obtain ⟨recs, sigs⟩ := x
  simp only [runProcesses, hok]
  cases h₂ : runProcesses st a c ps rest with
  | ok y =>
    obtain ⟨recs₂, sigs₂⟩ := y
    simp [runRecords]
  | error y =>
    obtain ⟨recs₂, sigs₂, err⟩ := y
    simp [runRecords]

/-- Every record the loop appends comes from one of its iterations. -/
lemma runRecords_mem (st : RunnerState) (a c : ℚ) (ps : ProcessTable) :
    ∀ (entries : List (String × List ProcessStatus)) (r : Record),
      r ∈ runRecords (runProcesses st a c ps entries) →
      ∃ e, e ∈ entries ∧ r ∈ stepRecords (killProcessStep st a c ps e) := by
  intro entries
  induction entries with
  | nil =>
    intro r hr
    simp [runProcesses, runRecords] at hr
  | cons e rest ih =>
    intro r hr
    cases hstep : killProcessStep st a c ps e with
    | error err =>
      simp only [runProcesses, hstep, runRecords] at hr
      simp at hr
    | ok x =>
      rw [runRecords_cons st a c ps e rest x hstep] at hr
      rcases List.mem_append.mp hr with h | h
      · exact ⟨e, List.mem_cons_self e rest, by simp [stepRecords, hstep, h]⟩
      · obtain ⟨e₂, he₂, hr₂⟩ := ih r h
        exact ⟨e₂, List.mem_cons_of_mem e he₂, hr₂⟩

/-- When every history is nonempty, the loop collects the records of each
iteration. -/
lemma runRecords_subset (st : RunnerState) (a c : ℚ) (ps : ProcessTable)
    (entries : List (String × List ProcessStatus))
    (hall : ∀ e ∈ entries, e.2 ≠ ([] : List ProcessStatus))
    (e : String × List ProcessStatus) (he : e ∈ entries) :
    stepRecords (killProcessStep st a c ps e) ⊆
      runRecords (runProcesses st a c ps entries) := by
  induction entries with
  | nil => cases he
  | cons e₀ rest ih =>
    obtain ⟨x, hx⟩ := killProcessStep_isOk st a c ps e₀
      (hall e₀ (List.mem_cons_self e₀ rest))
    rw [runRecords_cons st a c ps e₀ rest x hx]
    rcases List.mem_cons.mp he with he₀ | heR
    · subst he₀
      intro r hr
      rw [hx] at hr
      exact List.mem_append_left _ (by simpa [stepRecords] using hr)
    · intro r hr
      exact List.mem_append_right _
        (ih (fun e₂ he₂ => hall e₂ (List.mem_cons_of_mem e₀ he₂)) heR hr)

/-- Characterization of the records appended by one loop iteration: a
KILLED record with `return_code = -9`, `seq + 1` and `stop_time = now`
exactly when live state was found, else a LOST record with `seq + 1`
provided the prior state is neither terminal nor WAITING. -/
lemma stepRecords_spec (st : RunnerState) (a c : ℚ) (ps : ProcessTable)
    (e : String × List ProcessStatus) (r : Record)
    (hr : r ∈ stepRecords (killProcessStep st a c ps e)) :
    ∃ lastp, e.2.getLast? = some lastp
      ∧ is_process_terminal lastp.state = false
      ∧ ((r = Record.process_status
            { process := e.1, seq := lastp.seq + 1,
              state := ProcessState.KILLED, return_code := some (-9),
              stop_time := some c }
          ∧ (kill_process st e.1 a ps).2 = true)
        ∨ (r = Record.process_status
            { process := e.1, seq := lastp.seq + 1,
              state := ProcessState.LOST }
          ∧ (kill_process st e.1 a ps).2 = false
          ∧ lastp.state ≠ ProcessState.WAITING)) := by
  cases hgl : e.2.getLast? with
  | none =>
    unfold killProcessStep at hr
    rw [hgl] at hr
    simp [stepRecords] at hr
  | some lastp =>
    rw [killProcessStep_eq st a c ps e lastp hgl] at hr
    refine ⟨lastp, rfl, ?_⟩
    by_cases hterm : is_process_terminal lastp.state
    · rw [if_pos hterm] at hr
      simp [stepRecords] at hr
    · rw [if_neg hterm] at hr
      refine ⟨by simpa using hterm, ?_⟩
      by_cases hk : (kill_process st e.1 a ps).2 = true
      · rw [if_pos hk] at hr
        simp only [stepRecords, List.mem_singleton] at hr
        exact Or.inl ⟨hr, hk⟩
      · rw [Bool.not_eq_true] at hk
        rw [if_neg (by simp [hk])] at hr
        by_cases hw : lastp.state = ProcessState.WAITING
        · rw [if_neg (by simp [hw])] at hr
          simp [stepRecords] at hr
        · rw [if_pos hw] at hr
          simp only [stepRecords, List.mem_singleton] at hr
          exact Or.inr ⟨hr, hk, hw⟩

/-- In an association list with distinct keys (a Python dict), one key
has one value. -/
lemma assoc_nodup_eq {l : List (String × List ProcessStatus)}
    (hnodup : (l.map Prod.fst).Nodup) {a : String}
    {b c : List ProcessStatus} (h₁ : (a, b) ∈ l) (h₂ : (a, c) ∈ l) :
    b = c := by
  induction l with
  | nil => cases h₁
  | cons hd tl ih =>
    simp only [List.map_cons, List.nodup_cons] at hnodup
    rcases List.mem_cons.mp h₁ with h₁ | h₁ <;>
      rcases List.mem_cons.mp h₂ with h₂ | h₂
    · rw [← h₁] at h₂
      exact (Prod.mk.injEq _ _ _ _).mp h₂.symm |>.2
    · refine absurd ?_ hnodup.1
      rw [← h₁]
      simpa using List.mem_map_of_mem Prod.fst h₂
    · refine absurd ?_ hnodup.1
      rw [← h₂]
      simpa using List.mem_map_of_mem Prod.fst h₁
    · exact ih hnodup.2 h₁ h₂

/-- Dict lookup finds the stored value when keys are distinct. -/
lemma lookup_of_nodup {l : List (String × List ProcessStatus)}
    (hnodup : (l.map Prod.fst).Nodup) {a : String}
    {b : List ProcessStatus} (h : (a, b) ∈ l) :
    l.lookup a = some b := by
  induction l with
  | nil => cases h
  | cons hd tl ih =>
    obtain ⟨k, v⟩ := hd
    simp only [List.map_cons, List.nodup_cons] at hnodup
    rcases List.mem_cons.mp h with heq | hmem
    · injection heq with h₁ h₂
      subst h₁
      subst h₂
      simp [List.lookup]
    · have hbeq : (a == k) = false := by
        refine beq_eq_false_iff_ne.mpr ?_
        intro hak
        subst hak
        exact hnodup.1 (by simpa using List.mem_map_of_mem Prod.fst hmem)
      simp only [List.lookup, hbeq]
      exact ih hnodup.2 hmem

/-- `latestRun` agrees with the stored history of a dict entry. -/
lemma latestRun_of_mem {st : RunnerState} {name : String}
    {history : List ProcessStatus}
    (hnodup : (st.processes.map Prod.fst).Nodup)
    (hmem : (name, history) ∈ st.processes) :
    latestRun st name = history.getLast? := by
  unfold latestRun
  rw [lookup_of_nodup hnodup hmem]

/-- Every `ProcessStatus` record `kill` appends comes out of the
per-process loop: the paths outside the loop append only `TaskStatus`
records or nothing. -/
lemma kill_process_status_mem (st : RunnerState) (locked force : Bool)
    (terminal_status : TaskState) (clock_now ambient_now : ℚ)
    (self_pid : Pid) (self_uid : Nat) (sig : Pid → SigOutcome)
    (ps : ProcessTable) (fs : TaskDirState) (q : ProcessStatus)
    (hq : Record.process_status q ∈
      (kill (some st) locked force terminal_status clock_now ambient_now
        self_pid self_uid sig ps fs).records) :
    Record.process_status q ∈
      runRecords (runProcesses st ambient_now clock_now ps st.processes) := by
  unfold kill at hq
  by_cases hts : terminal_status ≠ TaskState.KILLED ∧
      terminal_status ≠ TaskState.LOST
  · rw [if_pos hts] at hq
    simp at hq
  · rw [if_neg hts] at hq
    cases hoc : open_checkpoint locked force (some st) self_pid sig with
    | error e =>
      rw [hoc] at hq
      simp at hq
    | ok u =>
      rw [hoc] at hq
      simp only [] at hq
      cases hh : st.header with
      | none =>
        rw [hh] at hq
        simp at hq
      | some hdr =>
        rw [hh] at hq
        cases hss : st.statuses with
        | none =>
          rw [hss] at hq
          simp at hq
        | some statuses =>
          rw [hss] at hq
          simp only [] at hq
          cases hgl : statuses.getLast? with
          | none =>
            rw [hgl] at hq
            simp at hq
          | some last =>
            rw [hgl] at hq
            simp only [] at hq
            by_cases hterm : is_task_terminal last.state = true
            · cases hfin : finalize_task fs <;> simp [hterm, hfin] at hq
            · cases hrun : runProcesses st ambient_now clock_now ps
                st.processes with
              | error x =>
                obtain ⟨recs, sigs, e⟩ := x
                simp only [runRecords]
                simp [hterm, hrun] at hq
                exact hq
              | ok x =>
                obtain ⟨recs, sigs⟩ := x
                simp only [runRecords]
                cases hfin : finalize_task fs <;>
                  · simp [hterm, hrun, hfin] at hq
                    exact hq

/-- On the mutation path, everything the loop wrote is among the records
of `kill`. -/
lemma kill_records_superset (st : RunnerState)
    (statuses : List TaskStatus) (last : TaskStatus) (hdr : TaskHeader)
    (force : Bool) (terminal_status : TaskState) (clock_now ambient_now : ℚ)
    (self_pid : Pid) (self_uid : Nat) (sig : Pid → SigOutcome)
    (ps : ProcessTable) (fs : TaskDirState)
    (hh : st.header = some hdr) (hs : st.statuses = some statuses)
    (hl : statuses.getLast? = some last)
    (hterm : is_task_terminal last.state = false)
    (hts : terminal_status = TaskState.KILLED ∨
      terminal_status = TaskState.LOST) :
    runRecords (runProcesses st ambient_now clock_now ps st.processes) ⊆
      (kill (some st) false force terminal_status clock_now ambient_now
        self_pid self_uid sig ps fs).records := by
  intro r hr
  rw [kill_mutation_path st statuses last hdr force terminal_status
    clock_now ambient_now self_pid self_uid sig ps fs hh hs hl hterm hts]
  cases hrun : runProcesses st ambient_now clock_now ps st.processes with
  | error x =>
    obtain ⟨recs, sigs, e⟩ := x
    rw [hrun] at hr
    simp only [runRecords] at hr
    exact List.mem_cons_of_mem _ hr
  | ok x =>
    obtain ⟨recs, sigs⟩ := x
    rw [hrun] at hr
    simp only [runRecords] at hr
    cases hfin : finalize_task fs <;>
      exact List.mem_cons_of_mem _ (List.mem_append_left _ hr)

/-- C4: a process whose latest status is WAITING never receives a LOST
record from `kill`; a LOST record for a process is appended only when its
scan-and-kill found nothing live and its prior state was neither terminal
nor WAITING. -/
theorem C4_waiting_exemption (st : RunnerState) (locked force : Bool)
    (terminal_status : TaskState) (clock_now ambient_now : ℚ)
    (self_pid : Pid) (self_uid : Nat) (sig : Pid → SigOutcome)
    (ps : ProcessTable) (fs : TaskDirState)
    (name : String) (history : List ProcessStatus) (lastp : ProcessStatus)
    (hnodup : (st.processes.map Prod.fst).Nodup)
    (hmem : (name, history) ∈ st.processes)
    (hlast : history.getLast? = some lastp) :
    (lastp.state = ProcessState.WAITING →
      ∀ q : ProcessStatus,
        Record.process_status q ∈
          (kill (some st) locked force terminal_status clock_now
            ambient_now self_pid self_uid sig ps fs).records →
        q.process = name → q.state ≠ ProcessState.LOST)
    ∧ (∀ q : ProcessStatus,
        Record.process_status q ∈
          (kill (some st) locked force terminal_status clock_now
            ambient_now self_pid self_uid sig ps fs).records →
        q.process = name → q.state = ProcessState.LOST →
        (kill_process st name ambient_now ps).2 = false
        ∧ is_process_terminal lastp.state = false
        ∧ lastp.state ≠ ProcessState.WAITING) := by
  have key : ∀ q : ProcessStatus,
      Record.process_status q ∈
        (kill (some st) locked force terminal_status clock_now ambient_now
          self_pid self_uid sig ps fs).records →
      q.process = name → q.state = ProcessState.LOST →
      (kill_process st name ambient_now ps).2 = false
      ∧ is_process_terminal lastp.state = false
      ∧ lastp.state ≠ ProcessState.WAITING := by
    intro q hq hname hlost
    have hmem₂ := kill_process_status_mem st locked force terminal_status
      clock_now ambient_now self_pid self_uid sig ps fs q hq
    obtain ⟨e, he, hre⟩ := runRecords_mem st ambient_now clock_now ps
      st.processes _ hmem₂
    obtain ⟨lastp₂, hgl₂, hterm₂, hcase⟩ := stepRecords_spec st ambient_now
      clock_now ps e _ hre
    rcases hcase with ⟨heq, hfound⟩ | ⟨heq, hnfound, hw⟩
    · injection heq with h
      subst h
      simp at hlost
    · injection heq with h
      subst h
      have hfst : e.1 = name := by simpa using hname
      have he₂ : (name, e.2) ∈ st.processes := by
        rw [← hfst]
        exact he
      have hhist : e.2 = history := assoc_nodup_eq hnodup he₂ hmem
      rw [hhist, hlast] at hgl₂
      injection hgl₂ with h₂
      subst h₂
      refine ⟨?_, hterm₂, hw⟩
      rw [← hfst]
      exact hnfound
  refine ⟨?_, key⟩
  intro hW q hq hname hlost
  exact (key q hq hname hlost).2.2 hW

/-- Example checkpoint state with one WAITING process `w` and a
non-terminal task status. -/
def exWaitState : RunnerState :=
  { header := some { user := "bob" }
    statuses := some
      [{ state := TaskState.ACTIVE, timestamp_ms := 0, runner_pid := 1,
         runner_uid := 0 }]
    processes :=
      [("w", [{ process := "w", seq := 0,
                state := ProcessState.WAITING }])] }

/-- Witness for C4: killing the concrete task with the WAITING process
`w` appends no LOST record for `w`. -/
theorem C4_waiting_exemption_witness :
    Record.process_status
        { process := "w", seq := 1, state := ProcessState.LOST } ∉
      (kill (some exWaitState) false true TaskState.KILLED 0 0 99 0 exSig
        exEmptyTable
        { active_exists := true, finished_exists := false }).records := by
  intro hq
  exact (C4_waiting_exemption exWaitState false true TaskState.KILLED 0 0
    99 0 exSig exEmptyTable
    { active_exists := true, finished_exists := false } "w"
    [{ process := "w", seq := 0, state := ProcessState.WAITING }]
    { process := "w", seq := 0, state := ProcessState.WAITING }
    (by simp [exWaitState]) (by simp [exWaitState]) rfl).1 rfl
    { process := "w", seq := 1, state := ProcessState.LOST } hq rfl rfl

/-- C5: every `ProcessStatus` record `kill` appends carries `seq` equal
to the latest prior record's `seq` plus one, hence strictly above it. -/
theorem C5_seq_monotonic (st : RunnerState) (locked force : Bool)
    (terminal_status : TaskState) (clock_now ambient_now : ℚ)
    (self_pid : Pid) (self_uid : Nat) (sig : Pid → SigOutcome)
    (ps : ProcessTable) (fs : TaskDirState)
    (hnodup : (st.processes.map Prod.fst).Nodup) :
    ∀ q : ProcessStatus,
      Record.process_status q ∈
        (kill (some st) locked force terminal_status clock_now ambient_now
          self_pid self_uid sig ps fs).records →
      ∀ history : List ProcessStatus,
        (q.process, history) ∈ st.processes →
        ∃ lastp, history.getLast? = some lastp
          ∧ q.seq = lastp.seq + 1 ∧ lastp.seq < q.seq := by
  intro q hq history hmem
  have hmem₂ := kill_process_status_mem st locked force terminal_status
    clock_now ambient_now self_pid self_uid sig ps fs q hq
  obtain ⟨e, he, hre⟩ := runRecords_mem st ambient_now clock_now ps
    st.processes _ hmem₂
  obtain ⟨lastp₂, hgl₂, hterm₂, hcase⟩ := stepRecords_spec st ambient_now
    clock_now ps e _ hre
  rcases hcase with ⟨heq, hfound⟩ | ⟨heq, hnfound, hw⟩ <;>
  · injection heq with h
    subst h
    have he₂ : (e.1, e.2) ∈ st.processes := he
    have hhist : e.2 = history := assoc_nodup_eq hnodup he₂ hmem
    refine ⟨lastp₂, ?_, rfl, ?_⟩
    · rw [← hhist]
      exact hgl₂
    · exact lt_add_one lastp₂.seq

/-- Example checkpoint state with one RUNNING process `r` at seq 4 and a
non-terminal task status. -/
def exRunState : RunnerState :=
  { header := some { user := "bob" }
    statuses := some
      [{ state := TaskState.ACTIVE, timestamp_ms := 0, runner_pid := 1,
         runner_uid := 0 }]
    processes :=
      [("r", [{ process := "r", seq := 4,
                state := ProcessState.RUNNING }])] }

/-- Witness for C5: the LOST record appended for the concrete process `r`
carries seq 5 = 4 + 1. -/
theorem C5_seq_monotonic_witness :
    ∃ lastp,
      ([{ process := "r", seq := 4, state := ProcessState.RUNNING }] :
        List ProcessStatus).getLast? = some lastp
      ∧ ({ process := "r", seq := 5, state := ProcessState.LOST } :
          ProcessStatus).seq = lastp.seq + 1
      ∧ lastp.seq <
        ({ process := "r", seq := 5, state := ProcessState.LOST } :
          ProcessStatus).seq :=
  C5_seq_monotonic exRunState false true TaskState.KILLED 0 0 99 0 exSig
    exEmptyTable { active_exists := true, finished_exists := false }
    (by simp [exRunState])
    { process := "r", seq := 5, state := ProcessState.LOST }
    (by decide)
    [{ process := "r", seq := 4, state := ProcessState.RUNNING }]
    (by simp [exRunState])

/-- Unfolding of `scan_process` once the latest run and header are known:
each of coordinator pid and main pid is kept iff recorded (truthy), live
in the table, and confirmed by the ownership heuristic — the coordinator
against the ambient clock, the main pid against the injected clock; the
descendant tree comes with the confirmed main pid. -/
lemma scan_process_eq (st : RunnerState) (name : String)
    (lastp : ProcessStatus) (hdr : TaskHeader) (clock_now ambient_now : ℚ)
    (ps : ProcessTable)
    (hlr : latestRun st name = some lastp) (hh : st.header = some hdr) :
    scan_process st name clock_now ambient_now ps =
      ((if (optPidTruthy lastp.coordinator_pid &&
            (ps.pids.contains (lastp.coordinator_pid.getD 0) &&
              this_is_really_our_pid
                (ps.handleOf (lastp.coordinator_pid.getD 0)) hdr.user
                lastp.fork_time ambient_now)) = true then
          some (lastp.coordinator_pid.getD 0)
        else none),
       (if (optPidTruthy lastp.pid &&
            (ps.pids.contains (lastp.pid.getD 0) &&
              this_is_really_our_pid (ps.handleOf (lastp.pid.getD 0))
                hdr.user lastp.start_time clock_now)) = true then
          some (lastp.pid.getD 0)
        else none),
       (if (optPidTruthy lastp.pid &&
            (ps.pids.contains (lastp.pid.getD 0) &&
              this_is_really_our_pid (ps.handleOf (lastp.pid.getD 0))
                hdr.user lastp.start_time clock_now)) = true then
          ps.childrenOf (lastp.pid.getD 0)
        else [])) := by
  unfold scan_process
  rw [hlr, hh]
  by_cases h₁ : optPidTruthy lastp.coordinator_pid = true <;>
    by_cases h₂ : (ps.pids.contains (lastp.coordinator_pid.getD 0) &&
      this_is_really_our_pid (ps.handleOf (lastp.coordinator_pid.getD 0))
        hdr.user lastp.fork_time ambient_now) = true <;>
    by_cases h₃ : optPidTruthy lastp.pid = true <;>
    by_cases h₄ : (ps.pids.contains (lastp.pid.getD 0) &&
      this_is_really_our_pid (ps.handleOf (lastp.pid.getD 0)) hdr.user
        lastp.start_time clock_now) = true <;>
    simp [h₁, h₂, h₃, h₄] <;> (split_ifs <;> simp_all)

/-- C6: when live state is found for a process, `kill_process` dispatches
SIGKILL in order — the recorded coordinator's process group (iff a
coordinator pid is recorded, live or not), then the confirmed-live
coordinator pid, then the confirmed-live main pid, then each descendant —
and `kill` appends for that process a ProcessStatus with state KILLED,
`return_code = -9`, `seq` = previous seq + 1 and `stop_time = now`. -/
theorem C6_kill_process_order (st : RunnerState) (hdr : TaskHeader)
    (statuses : List TaskStatus) (last : TaskStatus) (force : Bool)
    (terminal_status : TaskState) (clock_now ambient_now : ℚ)
    (self_pid : Pid) (self_uid : Nat) (sig : Pid → SigOutcome)
    (ps : ProcessTable) (fs : TaskDirState) (name : String)
    (history : List ProcessStatus) (lastp : ProcessStatus)
    (hh : st.header = some hdr)
    (hnodup : (st.processes.map Prod.fst).Nodup)
    (hmem : (name, history) ∈ st.processes)
    (hlast : history.getLast? = some lastp)
    (hs : st.statuses = some statuses)
    (hl : statuses.getLast? = some last)
    (htaskterm : is_task_terminal last.state = false)
    (hts : terminal_status = TaskState.KILLED ∨
      terminal_status = TaskState.LOST)
    (hall : ∀ e ∈ st.processes, e.2 ≠ ([] : List ProcessStatus))
    (hnonterm : is_process_terminal lastp.state = false)
    (hfound : (kill_process st name ambient_now ps).2 = true) :
    (kill_process st name ambient_now ps).1 =
      (if optPidTruthy lastp.coordinator_pid = true then
        [Sig.killGroup (lastp.coordinator_pid.getD 0)]
      else [])
      ++ (if (optPidTruthy lastp.coordinator_pid &&
            (ps.pids.contains (lastp.coordinator_pid.getD 0) &&
              this_is_really_our_pid
                (ps.handleOf (lastp.coordinator_pid.getD 0)) hdr.user
                lastp.fork_time ambient_now)) = true then
          [Sig.killPid (lastp.coordinator_pid.getD 0)]
        else [])
      ++ (if (optPidTruthy lastp.pid &&
            (ps.pids.contains (lastp.pid.getD 0) &&
              this_is_really_our_pid (ps.handleOf (lastp.pid.getD 0))
                hdr.user lastp.start_time ambient_now)) = true then
          [Sig.killPid (lastp.pid.getD 0)]
        else [])
      ++ (if (optPidTruthy lastp.pid &&
            (ps.pids.contains (lastp.pid.getD 0) &&
              this_is_really_our_pid (ps.handleOf (lastp.pid.getD 0))
                hdr.user lastp.start_time ambient_now)) = true then
          (ps.childrenOf (lastp.pid.getD 0)).map Sig.killPid
        else [])
    ∧ Record.process_status
        { process := name, seq := lastp.seq + 1,
          state := ProcessState.KILLED, return_code := some (-9),
          stop_time := some clock_now } ∈
      (kill (some st) false force terminal_status clock_now ambient_now
        self_pid self_uid sig ps fs).records := by
  have hlr : latestRun st name = some lastp := by
    rw [latestRun_of_mem hnodup hmem]
    exact hlast
  constructor
  · unfold kill_process get_coordinator_group
    rw [hlr, scan_process_eq st name lastp hdr ambient_now ambient_now ps
      hlr hh]
    by_cases h₁ : optPidTruthy lastp.coordinator_pid = true <;>
      by_cases h₂ : (optPidTruthy lastp.coordinator_pid &&
        (ps.pids.contains (lastp.coordinator_pid.getD 0) &&
          this_is_really_our_pid
            (ps.handleOf (lastp.coordinator_pid.getD 0)) hdr.user
            lastp.fork_time ambient_now)) = true <;>
      by_cases h₃ : (optPidTruthy lastp.pid &&
        (ps.pids.contains (lastp.pid.getD 0) &&
          this_is_really_our_pid (ps.handleOf (lastp.pid.getD 0))
            hdr.user lastp.start_time ambient_now)) = true <;>
      simp [h₁, h₂, h₃] <;> (split_ifs <;> simp_all)
  · have hstep : killProcessStep st ambient_now clock_now ps
        (name, history) = Except.ok
        ([Record.process_status
            { process := name, seq := lastp.seq + 1,
              state := ProcessState.KILLED, return_code := some (-9),
              stop_time := some clock_now }],
          (kill_process st name ambient_now ps).1) := by
      rw [killProcessStep_eq st ambient_now clock_now ps (name, history)
        lastp hlast]
      simp [hnonterm, hfound]
    have hmemrec : Record.process_status
        { process := name, seq := lastp.seq + 1,
          state := ProcessState.KILLED, return_code := some (-9),
          stop_time := some clock_now } ∈
        stepRecords (killProcessStep st ambient_now clock_now ps
          (name, history)) := by
      rw [hstep]
      simp [stepRecords]
    exact kill_records_superset st statuses last hdr force terminal_status
      clock_now ambient_now self_pid self_uid sig ps fs hh hs hl htaskterm
      hts
      (runRecords_subset st ambient_now clock_now ps st.processes hall
        (name, history) hmem hmemrec)

/-- Example checkpoint state whose process `r` recorded coordinator pid 3
and main pid 7, both started at time 100. -/
def exLiveState : RunnerState :=
  { header := some { user := "bob" }
    statuses := some
      [{ state := TaskState.ACTIVE, timestamp_ms := 0, runner_pid := 1,
         runner_uid := 0 }]
    processes :=
      [("r", [{ process := "r", seq := 2, state := ProcessState.RUNNING,
                coordinator_pid := some 3, pid := some 7,
                fork_time := 100, start_time := 100 }])] }

/-- Example live table for the kill-order witness: pids 3 and 7 are live,
owned by `bob`, each with wall time 5; pid 7 has descendants 8 and 9. -/
def exLiveTable : ProcessTable :=
  { pids := [3, 7]
    handleOf := fun p => { pid := p, user := "bob", wall_time := 5 }
    childrenOf := fun _ => [8, 9] }

/-- Witness for C6 at ambient clock 105 (so both recorded pids pass the
drift check): group kill first, then coordinator, then main pid, then
the two descendants; and the KILLED record at seq 3 with stop time 42. -/
theorem C6_kill_process_order_witness :
    (kill_process exLiveState "r" 105 exLiveTable).1 =
      [Sig.killGroup 3, Sig.killPid 3, Sig.killPid 7, Sig.killPid 8,
        Sig.killPid 9]
    ∧ Record.process_status
        { process := "r", seq := 3, state := ProcessState.KILLED,
          return_code := some (-9), stop_time := some 42 } ∈
      (kill (some exLiveState) false true TaskState.KILLED 42 105 99 0
        exSig exLiveTable
        { active_exists := true, finished_exists := false }).records := by
  have hfound : (kill_process exLiveState "r" 105 exLiveTable).2 = true := by
    norm_num [kill_process, get_coordinator_group, scan_process, latestRun,
      exLiveState, exLiveTable, this_is_really_our_pid,
      MAX_START_TIME_DRIFT, optPidTruthy]
  have h := C6_kill_process_order exLiveState { user := "bob" } _ _ true
    TaskState.KILLED 42 105 99 0 exSig exLiveTable
    { active_exists := true, finished_exists := false } "r"
    [{ process := "r", seq := 2, state := ProcessState.RUNNING,
       coordinator_pid := some 3, pid := some 7, fork_time := 100,
       start_time := 100 }]
    { process := "r", seq := 2, state := ProcessState.RUNNING,
      coordinator_pid := some 3, pid := some 7, fork_time := 100,
      start_time := 100 }
    rfl (by simp [exLiveState]) (by simp [exLiveState]) rfl rfl rfl rfl
    (Or.inl rfl) (by simp [exLiveState]) rfl hfound
  refine ⟨?_, h.2⟩
  rw [h.1]
  norm_num [optPidTruthy, this_is_really_our_pid, MAX_START_TIME_DRIFT,
    exLiveTable]

end Thermos
